import Mathlib

/-!
Verification development for the `chat-simplelearn` RAG chat backend.

The definitions below are a shallow embedding of the in-process logic of
the repository: the in-memory session registry
(`services/session_service.py`), the background-ingestion task routine
(`routers/file_process_router.py`), the streaming chat orchestrators and
the delete-collection endpoint (`routers/rag_router.py`), the persona
prompt builder (`prompts/rag_prompt.py`) and the metadata-cleaning step of
the ingestion pipeline
(`repository/file_processing/file_processing_repo.py`).

Python dictionaries are modelled as association lists, wall-clock time as
a natural number of seconds, and external collaborators (speech-to-text,
vector retrieval, LLM streaming) as explicitly supplied outcomes: a
collaborator call either returns a value or raises an exception carrying a
message string.
-/

namespace ChatSimpleLearn

/-- Python truthiness of an `Optional[str]` value: `None` and `""` are falsy. -/
def optTruthy : Option String → Bool
  | none => false
  | some s => s ≠ ""

/-!
Models of the Python string methods used by the repository, written with
structural recursion (over a character-count fuel where needed) so that the
kernel can evaluate them on concrete inputs.
-/

/-- Python `str.lower()` (ASCII case mapping). -/
def pyLower (s : String) : String := ⟨s.data.map Char.toLower⟩

/-- Python `str.upper()` (ASCII case mapping). -/
def pyUpper (s : String) : String := ⟨s.data.map Char.toUpper⟩

/-- Python `str.strip()`: removes leading and trailing whitespace. -/
def pyTrim (s : String) : String :=
  ⟨((s.data.dropWhile Char.isWhitespace).reverse.dropWhile Char.isWhitespace).reverse⟩

/-- Python slicing `s[n:]` (by code points). -/
def pyDrop (s : String) (n : Nat) : String := ⟨s.data.drop n⟩

/-- Python slicing `s[:-n]` (by code points). -/
def pyDropRight (s : String) (n : Nat) : String := ⟨s.data.take (s.data.length - n)⟩

/-- Python `str.startswith(pre)`. -/
def pyStartsWith (s pre : String) : Bool := pre.data.isPrefixOf s.data

/-- Python `str.endswith(suf)`. -/
def pyEndsWith (s suf : String) : Bool := suf.data.isSuffixOf s.data

/-- Scanner for `str.split(sep)` (non-empty `sep`): at each position, a
leading occurrence of `sep` ends the current piece. `fuel` bounds the
recursion; it is instantiated with the length of the scanned text, which
suffices because every step consumes at least one character. -/
def pySplitGo (sep : List Char) : Nat → List Char → List Char → List (List Char)
  | _, [], acc => [acc]
  | 0, l, acc => [acc ++ l]
  | fuel + 1, c :: rest, acc =>
      if sep.isPrefixOf (c :: rest) then
        acc :: pySplitGo sep fuel ((c :: rest).drop sep.length) []
      else pySplitGo sep fuel rest (acc ++ [c])

/-- Python `str.split(sep)` for a non-empty separator (the repository never
splits on an empty separator). -/
def pySplit (s sep : String) : List String :=
  if sep = "" then [s]
  else (pySplitGo sep.data s.data.length s.data []).map String.mk

/-- Python `str.replace(old, new)`: replaces every occurrence, left to
right (the repository never calls it with an empty `old`). -/
def pyReplace (s old new : String) : String :=
  if old = "" then s else String.intercalate new (pySplit s old)

/-! ## Session registry (`services/session_service.py`) -/

/-- `models/rags/rag_models.py` `ChatMessage`: role, content and an optional
list of `{type, reference}`-style string pairs. -/
structure ChatMessage where
  role : String
  content : String
  sources : Option (List (String × String))
  deriving Repr, DecidableEq

/-- One value of the `_sessions` dict of `SessionService`: the per-session
record created by `create_session`. -/
structure Session where
  id : String
  collection_name : String
  chat_history : List ChatMessage
  created_at : Nat
  last_accessed : Nat
  message_count : Nat
  deriving Repr, DecidableEq

/-- The mutable state of `SessionService`: the timeout configuration, the
session dict (an association list keyed by session id), and the cleanup
bookkeeping. -/
structure SessionService where
  session_timeout_hours : Nat
  sessions : List (String × Session)
  last_cleanup : Nat
  cleanup_interval : Nat
  deriving Repr, DecidableEq

namespace SessionService

/-- Dict lookup `self._sessions.get(session_id)`. -/
def lookup (svc : SessionService) (sid : String) : Option Session :=
  (svc.sessions.find? (fun kv => kv.1 = sid)).map (·.2)

/-- Dict assignment `self._sessions[sid] = sess` (replaces in place when the
key is present, otherwise appends, as Python dicts preserve insertion
order). -/
def store (svc : SessionService) (sid : String) (sess : Session) : SessionService :=
  if (svc.sessions.find? (fun kv => kv.1 = sid)).isSome then
    { svc with sessions := svc.sessions.map (fun kv => if kv.1 = sid then (sid, sess) else kv) }
  else
    { svc with sessions := svc.sessions ++ [(sid, sess)] }

/-- Dict deletion `del self._sessions[sid]`. -/
def erase (svc : SessionService) (sid : String) : SessionService :=
  { svc with sessions := svc.sessions.filter (fun kv => kv.1 ≠ sid) }

/-- `SessionService.__init__(session_timeout_hours=24)` at start time `now`. -/
def init (timeout_hours : Nat) (now : Nat) : SessionService :=
  { session_timeout_hours := timeout_hours
    sessions := []
    last_cleanup := now
    cleanup_interval := 3600 }

/-- `SessionService.create_session`: the fresh UUID is supplied as `sid`. -/
def create_session (svc : SessionService) (sid : String) (collection_name : String)
    (now : Nat) : SessionService × String :=
  (svc.store sid
    { id := sid
      collection_name := collection_name
      chat_history := []
      created_at := now
      last_accessed := now
      message_count := 0 }, sid)

/-- A session is expired when `current_time - last_accessed > timeout_hours * 3600`. -/
def expired (svc : SessionService) (now : Nat) (sess : Session) : Bool :=
  now - sess.last_accessed > svc.session_timeout_hours * 3600

/-- `SessionService._cleanup_expired_sessions`. -/
def cleanup_expired_sessions (svc : SessionService) (now : Nat) : SessionService :=
  { svc with
    sessions := svc.sessions.filter (fun kv => ¬ svc.expired now kv.2)
    last_cleanup := now }

/-- `SessionService.get_session`: returns the session (with refreshed
`last_accessed`) or `none`, together with the updated registry state.
The opportunistic cleanup sweep runs first when the cleanup interval has
elapsed. -/
def get_session (svc : SessionService) (sid : String) (now : Nat) :
    Option Session × SessionService :=
  if sid = "" then (none, svc)
  else
    let svc₁ := if now - svc.last_cleanup > svc.cleanup_interval then
        svc.cleanup_expired_sessions now
      else svc
    match svc₁.lookup sid with
    | none => (none, svc₁)
    | some sess =>
        if svc₁.expired now sess then (none, svc₁.erase sid)
        else
          let sess' := { sess with last_accessed := now }
          (some sess', svc₁.store sid sess')

/-- `SessionService.add_message_to_session`: appends `message.dict()` to the
history, bumps `message_count` and `last_accessed`, and keeps only the last
50 history entries. Returns `False` when the session id is falsy or not
present. -/
def add_message_to_session (svc : SessionService) (sid : String)
    (message : ChatMessage) (now : Nat) : Bool × SessionService :=
  if sid = "" then (false, svc)
  else
    match svc.lookup sid with
    | none => (false, svc)
    | some sess =>
        let hist := sess.chat_history ++ [message]
        let hist := if hist.length > 50 then hist.drop (hist.length - 50) else hist
        (true, svc.store sid
          { sess with
            chat_history := hist
            message_count := sess.message_count + 1
            last_accessed := now })

/-- The record returned by `SessionService.get_session_stats`. -/
structure Stats where
  active_sessions : Nat
  total_sessions : Nat
  total_messages : Nat
  session_timeout_hours : Nat
  deriving Repr, DecidableEq

/-- `SessionService.get_session_stats`: scans all sessions, counting those
whose `last_accessed` lies within the timeout window and summing their
`message_count`. -/
def get_session_stats (svc : SessionService) (now : Nat) : Stats :=
  { active_sessions :=
      (svc.sessions.filter
        (fun kv => now - kv.2.last_accessed ≤ svc.session_timeout_hours * 3600)).length
    total_sessions := svc.sessions.length
    total_messages :=
      ((svc.sessions.filter
        (fun kv => now - kv.2.last_accessed ≤ svc.session_timeout_hours * 3600)).map
          (fun kv => kv.2.message_count)).sum
    session_timeout_hours := svc.session_timeout_hours }

/-- Fold a list of messages into one session via repeated
`add_message_to_session`, all at time `now`. -/
def addMessages (svc : SessionService) (sid : String) (msgs : List ChatMessage)
    (now : Nat) : SessionService :=
  msgs.foldl (fun s m => (s.add_message_to_session sid m now).2) svc

end SessionService

/-! ## Documents and metadata -/

/-- A metadata value: the repository only ever stores strings and integers in
document metadata. -/
inductive MetaVal where
  | str (s : String)
  | int (n : Nat)
  deriving Repr, DecidableEq

/-- Python `str()` / f-string rendering of a metadata value. -/
def MetaVal.render : MetaVal → String
  | .str s => s
  | .int n => toString n

/-- A langchain `Document`: page content plus a metadata dict. -/
structure Doc where
  page_content : String
  metadata : List (String × MetaVal)
  deriving Repr, DecidableEq

/-- `doc.metadata.get(k)`. -/
def Doc.metaGet (d : Doc) (k : String) : Option MetaVal :=
  (d.metadata.find? (fun kv => kv.1 = k)).map (·.2)

/-- `doc.metadata.get('source', '')`, rendered as in an f-string. -/
def Doc.sourceVal (d : Doc) : String :=
  ((d.metaGet "source").map MetaVal.render).getD ""

/-- `doc.metadata.get('page', 1)`. -/
def Doc.pageVal (d : Doc) : MetaVal :=
  (d.metaGet "page").getD (MetaVal.int 1)

/-- Outcome of one call to an external collaborator: a value, or an
exception whose `str()` is `msg`. -/
inductive StageResult (α : Type) where
  | ok (a : α)
  | exc (msg : String)
  deriving Repr, DecidableEq

/-! ## Ingestion task routine (`routers/file_process_router.py`) -/

/-- The `result` payload written on the success path of
`process_vector_store_creation`. -/
structure TaskResult where
  num_documents : Nat
  collection_name : String
  summary : String
  faq : List String
  deriving Repr, DecidableEq

/-- One value of the `task_status_store` dict.  Keys absent from the stored
Python dict are modelled as `none`. -/
structure TaskEntry where
  status : String
  progress : Option Nat
  result : Option TaskResult
  error : Option String
  deriving Repr, DecidableEq

/-- The `task_status_store` dict. -/
abbrev TaskStore := List (String × TaskEntry)

/-- Dict assignment `task_status_store[task_id] = entry`. -/
def TaskStore.set (st : TaskStore) (k : String) (v : TaskEntry) : TaskStore :=
  if (st.find? (fun kv => kv.1 = k)).isSome then
    st.map (fun kv => if kv.1 = k then (k, v) else kv)
  else st ++ [(k, v)]

/-- Dict lookup `task_status_store.get(task_id)`. -/
def TaskStore.get (st : TaskStore) (k : String) : Option TaskEntry :=
  (st.find? (fun kv => kv.1 = k)).map (·.2)

/-- `task_status_store[task_id]["progress"] = p` (in-place field update). -/
def TaskStore.setProgress (st : TaskStore) (k : String) (p : Nat) : TaskStore :=
  st.map (fun kv => if kv.1 = k then (k, { kv.2 with progress := some p }) else kv)

/-- `generate_insights_from_documents` success payload. -/
structure InsightsResult where
  summary : String
  faq : List String
  deriving Repr, DecidableEq

/-- The outcomes of the three collaborator stages of
`process_vector_store_creation`, plus whether the temporary processing
directory exists when the `finally` block runs. -/
structure IngestEnv where
  load_result : StageResult (List Doc)
  vectorstore_result : StageResult Unit
  insights_result : StageResult InsightsResult
  dir_exists : Bool
  deriving Repr, DecidableEq

/-- `process_vector_store_creation`: runs the try/except/finally body on the
given store and stage outcomes.  Returns the resulting store and whether the
temporary processing directory was removed (`shutil.rmtree` in `finally`,
guarded by `temp_processing_dir` being non-`None` and existing). -/
def process_vector_store_creation (store : TaskStore) (task_id : String)
    (collection_name : String) (file_paths : List String) (env : IngestEnv) :
    TaskStore × Bool :=
  let finalStore :=
    let st := store.set task_id ⟨"processing", some 0, none, none⟩
    let st := st.setProgress task_id 10
    let st := st.setProgress task_id 50
    match env.load_result with
    | .exc m => st.set task_id ⟨"failed", none, none, some m⟩
    | .ok docs =>
      let st := st.setProgress task_id 75
      match env.vectorstore_result with
      | .exc m => st.set task_id ⟨"failed", none, none, some m⟩
      | .ok _ =>
        let st := st.setProgress task_id 85
        match env.insights_result with
        | .exc m => st.set task_id ⟨"failed", none, none, some m⟩
        | .ok ins =>
          st.set task_id ⟨"completed", some 100,
            some ⟨docs.length, collection_name, ins.summary, ins.faq⟩, none⟩
  (finalStore, (file_paths ≠ []) && env.dir_exists)

/-! ## Streaming chat orchestrator (`routers/rag_router.py`) -/

/-- One chunk delivered by `chain.astream`: an object with a `content`
attribute, a dict carrying an `answer` key, or anything else. -/
inductive Chunk where
  | withContent (content : String)
  | dictAnswer (answer : String)
  | plain
  deriving Repr, DecidableEq

/-- Content emitted for one chunk in `chat_with_rag_stream.generate_stream`:
a truthy `content` attribute, else a dict `answer` value. -/
def Chunk.emitted : Chunk → Option String
  | .withContent c => if c ≠ "" then some c else none
  | .dictAnswer a => some a
  | .plain => none

/-- Content emitted for one chunk in the persona-mode stream, which only
checks for a truthy `content` attribute. -/
def Chunk.emittedPersona : Chunk → Option String
  | .withContent c => if c ≠ "" then some c else none
  | _ => none

/-- The collaborator behaviour one run of `generate_stream` observes:
retrieval outcome, the chunks the LLM stream delivers, and an optional
exception the stream raises after those chunks. -/
structure StreamEnv where
  retrieval : StageResult (List Doc)
  chunks : List Chunk
  stream_exc : Option String
  deriving Repr, DecidableEq

/-- One server-sent event frame of `chat_with_rag_stream`. -/
inductive Event where
  | source (reference : String)
  | content (content : String)
  | complete (content : String) (sources : List String)
  | error (msg : String)
  | done
  deriving Repr, DecidableEq

/-- The `source_key` built for one retrieved document. -/
def sourceRef (d : Doc) : String :=
  d.sourceVal ++ ", Page: " ++ d.pageVal.render

/-- `chat_with_rag_stream.generate_stream`: yields one `source` event per
retrieved document, then `content` events for the emitted chunks, then the
terminal `complete` event plus the `[DONE]` sentinel; any exception inside
the `try` ends the stream with a single `error` event instead. -/
def generate_stream (env : StreamEnv) : List Event :=
  match env.retrieval with
  | .exc m => [.error m]
  | .ok docs =>
    let refs := docs.map sourceRef
    let contents := env.chunks.filterMap Chunk.emitted
    let head := refs.map Event.source ++ contents.map Event.content
    match env.stream_exc with
    | some m => head ++ [.error m]
    | none => head ++ [.complete (String.join contents) refs, .done]

/-! ## Request validation (`chat_with_rag_stream`, lines 108-123) -/

/-- The fields of `ChatRequest` the validation prefix reads. -/
structure ChatRequest where
  question : Option String
  is_audio : Bool
  audio_data : Option String
  audio_url : Option String
  collection_name : String
  chat_language : Option String
  deriving Repr, DecidableEq

/-- Outcome of the question-resolution prefix of the handler:
an `HTTPException`, or proceeding with the resolved question (recording
whether the external transcription collaborator was called). -/
inductive ResolveOutcome where
  | httpError (status : Nat) (detail : String)
  | proceed (final_question : String) (transcription_called : Bool)
  deriving Repr, DecidableEq

/-- The question-resolution prefix of `chat_with_rag_stream`;
`transcription` is the text the transcription collaborator would return. -/
def resolve_question (req : ChatRequest) (transcription : String) : ResolveOutcome :=
  if req.is_audio then
    if (!optTruthy req.audio_data) && (!optTruthy req.audio_url) then
      .httpError 400 "Audio data or URL required when is_audio=True"
    else
      let fq := if optTruthy req.question then
          (req.question.getD "") ++ "\n\nAudio transcription: " ++ transcription
        else transcription
      .proceed fq true
  else if !optTruthy req.question then
    .httpError 400 "Question is required when is_audio=False"
  else .proceed (req.question.getD "") false

/-! ## Persona prompt builder (`prompts/rag_prompt.py`) -/

/-- The `persona_contexts` dict of `get_persona_rag_prompt`, read through
`.get(persona.lower(), persona_contexts["default"])`. -/
def persona_contexts_get (p : String) : String :=
  if p = "ux" then
    "Analyze this from a User Experience perspective. Focus on usability, user journey, pain points, and interaction design implications."
  else if p = "sales" then
    "Analyze this from a Sales and Business perspective. Focus on commercial implications, customer value, and revenue opportunities."
  else if p = "technical" then
    "Analyze this from a Technical perspective. Focus on implementation, architecture, system design, and technical best practices."
  else if p = "management" then
    "Analyze this from a Strategic Management perspective. Focus on business strategy, ROI, organizational impact, and resource allocation."
  else
    "Provide expert analysis based on the provided context."

/-- The rendered f-string of `get_persona_rag_prompt` up to (and including)
the `"- "` that precedes the interpolated persona instruction. -/
def personaPromptPart1 (persona : String) : String :=
  "\n    SYSTEM: You are a Cambridge School textbook assistant with " ++ pyUpper persona
    ++ " expertise for Grade 6-8 students, answering questions with a textbook-first approach.\n        - Your PRIMARY approach is to answer based EXCLUSIVELY on the textbook documents provided.\n        - If the textbook content contains relevant information, use ONLY that information to answer.\n        - If the textbook content does NOT contain enough information to answer the question completely, provide a helpful response appropriate for Grade 6-8 students that:\n          * Acknowledges that the specific topic may not be covered in detail in the current textbook\n          * Provides relevant, age-appropriate information that directly relates to the student\x27s question\n          * Uses clear, simple language suitable for middle school students\n          * Keeps the response focused and directly answers what the student is asking\n        - "

/-- The rendered f-string of `get_persona_rag_prompt` after the interpolated
persona instruction. -/
def personaPromptPart2 (persona language_instruction : String) : String :=
  "\n        - The language of generated answers must always be in " ++ language_instruction
    ++ ". No matter the language of the question or embedded documents or chat history is in, you must always respond in "
    ++ language_instruction
    ++ ".\n        - DO NOT include any citations, references, or source information in your response text.\n        - DO NOT use phrases like \"according to the document\" or \"based on the source\".\n        - Provide a clean, direct answer without any source markers, but always prioritize textbook content when available.\n        - You will have past history of conversation, if user asks something related to it, answer from the provided chat history.\n        - If the user asks about Key points or Steps or Criteria or Checklist, provide a numbered list in your answer, separated by single \n\n        - If there is a case where you will 2 \n\n in the provided context, you must consider only one \n and provide answer accordingly. \n\n        Here is the context retrieved from the textbook documents:\n        -----------------\n        {context}\n        -----------------\n\n        USER\x27S QUESTION:\n        {question}\n\n        CHAT HISTORY:\n        {chat_history}\n\n        YOUR ANSWER ("
    ++ pyUpper persona ++ " Perspective, textbook-first with student support):\n"

/-- `get_persona_rag_prompt(persona, response_language)`. -/
def get_persona_rag_prompt (persona : String) (response_language : String) : String :=
  let language_instruction := if pyLower response_language = "de" then "German" else "English"
  let persona_instruction := persona_contexts_get (pyLower persona)
  personaPromptPart1 persona ++ persona_instruction
    ++ personaPromptPart2 persona language_instruction

/-! ## Persona handler prefix (`chat_with_persona_rag_stream`, lines 418-447) -/

/-- `PersonaChatRequest` extends `ChatRequest` with a `persona` field. -/
structure PersonaChatRequest extends ChatRequest where
  persona : String
  deriving Repr, DecidableEq

/-- `valid_personas` of `chat_with_persona_rag_stream`. -/
def valid_personas : List String := ["ux", "sales", "technical", "management", "default"]

/-- Outcome of the persona handler prefix: an `HTTPException`, or reaching
the retrieval call with the resolved question. -/
inductive PersonaPrefixOutcome where
  | httpError (status : Nat) (detail : String)
  | retrieve (final_question : String) (persona : String)
  deriving Repr, DecidableEq

/-- The prefix of `chat_with_persona_rag_stream` that runs before the
retriever is invoked: persona validation (case-insensitive membership in
`valid_personas`), then question resolution (the audio branch substitutes a
placeholder transcription). -/
def persona_handler_prefix (req : PersonaChatRequest) : PersonaPrefixOutcome :=
  if !(valid_personas.contains (pyLower req.persona)) then
    .httpError 400
      "Invalid persona. Must be one of: [\x27ux\x27, \x27sales\x27, \x27technical\x27, \x27management\x27, \x27default\x27]"
  else if req.is_audio && (optTruthy req.audio_data || optTruthy req.audio_url) then
    let t := "[Audio transcription placeholder]"
    let fq := if optTruthy req.question then
        (req.question.getD "") ++ "\n\nAudio transcription: " ++ t
      else t
    .retrieve fq req.persona
  else if !optTruthy req.question then
    .httpError 400 "Question is required"
  else .retrieve (req.question.getD "") req.persona

/-! ## Delete collection endpoint (`rag_router.py`, lines 367-413) -/

/-- `DeleteCollectionResponse` (timestamp omitted). -/
structure DeleteCollectionResponse where
  success : Bool
  collection_name : String
  message : String
  deriving Repr, DecidableEq

/-- `delete_collection` body (after the Milvus connection is established):
given `request.confirm`, the collection name, and whether
`utility.has_collection` holds, returns the response and whether
`utility.drop_collection` was issued. -/
def delete_collection (confirm : Bool) (collection_name : String)
    (has_collection : Bool) : DeleteCollectionResponse × Bool :=
  if !confirm then
    ({ success := false, collection_name := collection_name,
       message := "Deletion not confirmed - set confirm=True to delete" }, false)
  else if has_collection then
    ({ success := true, collection_name := collection_name,
       message := "Collection successfully deleted" }, true)
  else
    ({ success := false, collection_name := collection_name,
       message := "Nothing to delete: collection not found" }, false)

/-! ## Metadata cleaning (`repository/file_processing/file_processing_repo.py`) -/

/-- `safe_fields` of `FileProcessingRepo.clean_metadata`. -/
def safe_fields : List String := ["source", "page", "filename", "project_id", "gcp_url"]

/-- `FileProcessingRepo.clean_metadata`: keeps only allow-listed metadata
keys; an empty (falsy) metadata dict is returned unchanged. -/
def clean_metadata (doc : Doc) : Doc :=
  if doc.metadata = [] then doc
  else { doc with metadata := doc.metadata.filter (fun kv => safe_fields.contains kv.1) }

/-- Dict assignment `doc.metadata[k] = v`. -/
def metaSet (md : List (String × MetaVal)) (k : String) (v : MetaVal) :
    List (String × MetaVal) :=
  if (md.find? (fun kv => kv.1 = k)).isSome then
    md.map (fun kv => if kv.1 = k then (k, v) else kv)
  else md ++ [(k, v)]

/-- The document list `create_milvus_vectorstore` hands to
`Milvus.from_documents`: every document is cleaned, then
`doc.metadata['collection_name'] = collection_name` is set. -/
def indexed_documents (documents : List Doc) (collection_name : String) : List Doc :=
  (documents.map clean_metadata).map
    (fun d => { d with metadata := metaSet d.metadata "collection_name" (.str collection_name) })

/-! ## Persona-mode citation extraction (`chat_with_persona_rag_stream.generate_stream`) -/

/-- Python substring test `sub in hay` (the empty string is contained in
everything). -/
def pyIn (sub hay : String) : Bool :=
  sub = "" || (pySplit hay sub).length > 1

/-- The `sources_markers` list. -/
def sources_markers : List String := ["SOURCES:", "REFERENCES:", "Sources:", "References:"]

/-- The marker-splitting loop: the first marker (in list order) contained in
the content splits it into `(processed_content, sources_section)`; with no
marker the content is left as is and the section is empty. -/
def split_sources_section (content : String) : String × String :=
  match sources_markers.find? (fun m => pyIn m content) with
  | none => (content, "")
  | some m =>
    let parts := pySplit content m
    (pyTrim (parts.headD ""), pyTrim (parts.getD 1 ""))

/-- `[line.strip() for line in sources_section.split('\n') if line.strip()]`. -/
def section_lines (sources_section : String) : List String :=
  ((pySplit sources_section "\n").map pyTrim).filter (fun l => l ≠ "")

/-- One entry of the terminal event's `sources` list. -/
structure SourceEntry where
  source : String
  page : MetaVal
  reference : String
  deriving Repr, DecidableEq

/-- The per-line body of the citation-matching loop: a bracketed line
containing `Source:` and `Page:` is split on `","`; with fewer than two
parts the `IndexError` handler appends an `Unknown` entry; otherwise the
first retrieved document whose source/page match yields a resolved entry,
and a line matching no document yields nothing. -/
def line_entry (retrieved_docs : List Doc) (line : String) : Option SourceEntry :=
  if pyStartsWith line "[" && pyEndsWith line "]" then
    if pyIn "Source:" (pyDropRight (pyDrop line 1) 1)
        && pyIn "Page:" (pyDropRight (pyDrop line 1) 1) then
      match pySplit (pyDropRight (pyDrop line 1) 1) "," with
      | p0 :: p1 :: _ =>
        match retrieved_docs.find? (fun doc =>
            (pyIn doc.sourceVal (pyTrim (pyReplace p0 "Source:" ""))
                || pyIn (pyTrim (pyReplace p0 "Source:" "")) doc.sourceVal)
              && doc.pageVal.render = pyTrim (pyReplace p1 "Page:" "")) with
        | some doc => some { source := doc.sourceVal, page := doc.pageVal, reference := line }
        | none => none
      | _ => some { source := "Unknown", page := .int 1, reference := line }
    else none
  else none

/-- The post-hoc source extraction of the persona stream: split off the
sources section, then run the citation-matching loop over its non-empty
lines, accumulating matched entries in order. -/
def extract_sources (full_content : String) (retrieved_docs : List Doc) :
    String × List SourceEntry :=
  match split_sources_section full_content with
  | (processed_content, sources_section) =>
    if sources_section ≠ "" then
      (processed_content, (section_lines sources_section).foldl
        (fun acc line => acc ++ (line_entry retrieved_docs line).toList) [])
    else (processed_content, [])

/-- One server-sent event frame of the persona stream. -/
inductive PEvent where
  | persona_info (persona : String) (collection : String)
  | content (content : String)
  | complete (content : String) (sources : List SourceEntry)
  | error (msg : String)
  | done
  deriving Repr, DecidableEq

/-- `chat_with_persona_rag_stream.generate_stream`: a `persona_info` frame,
`content` frames for the emitted chunks, then the terminal `complete` frame
(carrying the content with the sources section stripped, and the extracted
source entries) plus `[DONE]`; an exception ends the stream with a single
`error` frame instead. -/
def persona_generate_stream (persona collection : String) (retrieved_docs : List Doc)
    (chunks : List Chunk) (stream_exc : Option String) : List PEvent :=
  let contents := chunks.filterMap Chunk.emittedPersona
  let head := PEvent.persona_info persona collection :: contents.map PEvent.content
  match stream_exc with
  | some m => head ++ [.error m]
  | none =>
    let es := extract_sources (String.join contents) retrieved_docs
    head ++ [.complete es.1 es.2, .done]

/-- The message of the first collaborator stage of
`process_vector_store_creation` that raises, if any. -/
def IngestEnv.firstExc (env : IngestEnv) : Option String :=
  match env.load_result with
  | .exc m => some m
  | .ok _ =>
    match env.vectorstore_result with
    | .exc m => some m
    | .ok _ =>
      match env.insights_result with
      | .exc m => some m
      | .ok _ => none

/-! ## Association-list helper lemmas -/

theorem find?_map_update {β : Type} (l : List (String × β)) (k : String) (v : β)
    (h : (l.find? (fun kv => kv.1 = k)).isSome = true) :
    (l.map (fun kv => if kv.1 = k then (k, v) else kv)).find? (fun kv => kv.1 = k)
      = some (k, v) := by
  induction l with
  | nil => simp at h
  | cons x t ih =>
    by_cases hx : x.1 = k
    · simp [hx]
    · simp only [List.map_cons, if_neg hx]
      rw [List.find?_cons_of_neg _ (by simp [hx])]
      apply ih
      rwa [List.find?_cons_of_neg _ (by simp [hx])] at h

theorem find?_append_single {β : Type} (l : List (String × β)) (k : String) (v : β)
    (h : l.find? (fun kv => kv.1 = k) = none) :
    (l ++ [(k, v)]).find? (fun kv => kv.1 = k) = some (k, v) := by
  induction l with
  | nil => simp
  | cons x t ih =>
    by_cases hx : x.1 = k
    · rw [List.find?_cons_of_pos _ (by simp [hx])] at h
      cases h
    · simp only [List.cons_append]
      rw [List.find?_cons_of_neg _ (by simp [hx])]
      apply ih
      rwa [List.find?_cons_of_neg _ (by simp [hx])] at h

theorem find?_filter_of_find? {β : Type} {p q : (String × β) → Bool} {l : List (String × β)}
    {a : String × β} (h : l.find? p = some a) (hq : q a = true) :
    (l.filter q).find? p = some a := by
  induction l with
  | nil => simp at h
  | cons x t ih =>
    by_cases hx : p x = true
    · rw [List.find?_cons_of_pos _ hx] at h
      injection h with h
      subst h
      rw [List.filter_cons_of_pos hq, List.find?_cons_of_pos _ hx]
    · rw [List.find?_cons_of_neg _ (by simp [hx])] at h
      by_cases hqx : q x = true
      · rw [List.filter_cons_of_pos hqx, List.find?_cons_of_neg _ (by simp [hx])]
        exact ih h
      · rw [List.filter_cons_of_neg (by simp [hqx])]
        exact ih h

theorem mem_unique_key {β : Type} {l : List (String × β)} (hn : (l.map Prod.fst).Nodup)
    {a b : String × β} (ha : a ∈ l) (hb : b ∈ l) (hk : a.1 = b.1) : a = b := by
  induction l with
  | nil => cases ha
  | cons x t ih =>
    rw [List.map_cons, List.nodup_cons] at hn
    rcases List.mem_cons.mp ha with rfl | ha'
    · rcases List.mem_cons.mp hb with rfl | hb'
      · rfl
      · exact absurd (hk ▸ List.mem_map_of_mem Prod.fst hb') hn.1
    · rcases List.mem_cons.mp hb with rfl | hb'
      · exact absurd (hk ▸ List.mem_map_of_mem Prod.fst ha') hn.1
      · exact ih hn.2 ha' hb'

theorem find?_filter_none_unique {β : Type} {l : List (String × β)} {k : String}
    {a : String × β} {q : (String × β) → Bool}
    (hn : (l.map Prod.fst).Nodup) (h : l.find? (fun kv => kv.1 = k) = some a)
    (hq : q a = false) :
    (l.filter q).find? (fun kv => kv.1 = k) = none := by
  rw [List.find?_eq_none]
  intro x hx hpx
  have hxl : x ∈ l := (List.mem_filter.mp hx).1
  have hqx : q x = true := (List.mem_filter.mp hx).2
  have hak : a.1 = k := by simpa using List.find?_some h
  have hxk : x.1 = k := by simpa using hpx
  have : x = a := mem_unique_key hn hxl (List.mem_of_find?_eq_some h) (hxk.trans hak.symm)
  rw [this, hq] at hqx
  cases hqx

theorem find?_filter_none {β : Type} {l : List (String × β)} {p q : (String × β) → Bool}
    (h : l.find? p = none) : (l.filter q).find? p = none := by
  rw [List.find?_eq_none] at h ⊢
  intro x hx
  exact h x (List.mem_filter.mp hx).1

theorem foldl_append_toList_eq_filterMap {α β : Type} (f : α → Option β) (l : List α) :
    l.foldl (fun acc a => acc ++ (f a).toList) [] = l.filterMap f := by
  have key : ∀ (l : List α) (acc : List β),
      l.foldl (fun acc a => acc ++ (f a).toList) acc = acc ++ l.filterMap f := by
    intro l
    induction l with
    | nil => intro acc; simp
    | cons a t ih =>
      intro acc
      rw [List.foldl_cons, ih, List.filterMap_cons]
      cases f a <;> simp
  simpa using key l []

theorem drop_trim_append {α : Type} (c : Nat) (a r : List α) :
    ((a.drop (a.length - c)) ++ r).drop (((a.drop (a.length - c)) ++ r).length - c)
      = (a ++ r).drop ((a ++ r).length - c) := by
  rw [← List.drop_append_of_le_length (Nat.sub_le a.length c), List.drop_drop]
  congr 1
  simp [List.length_append, List.length_drop]
  omega

/-! ## Session registry lemmas -/

theorem SessionService.find?_of_lookup {svc : SessionService} {sid : String} {sess : Session}
    (h : svc.lookup sid = some sess) :
    svc.sessions.find? (fun kv => kv.1 = sid) = some (sid, sess) := by
  unfold SessionService.lookup at h
  cases heq : svc.sessions.find? (fun kv => kv.1 = sid) with
  | none => rw [heq] at h; cases h
  | some kv =>
    rw [heq] at h
    have h1 : kv.1 = sid := by simpa using List.find?_some heq
    obtain ⟨k1, v1⟩ := kv
    simp at h h1
    rw [h1, h]

theorem SessionService.lookup_store (svc : SessionService) (sid : String) (sess : Session) :
    (svc.store sid sess).lookup sid = some sess := by
  unfold SessionService.store SessionService.lookup
  by_cases h : (svc.sessions.find? (fun kv => kv.1 = sid)).isSome = true
  · rw [if_pos h]
    simp [find?_map_update _ _ _ h]
  · rw [if_neg h]
    have hnone : svc.sessions.find? (fun kv => kv.1 = sid) = none :=
      Option.not_isSome_iff_eq_none.mp (by simpa using h)
    simp [find?_append_single _ _ _ hnone]

theorem SessionService.lookup_erase (svc : SessionService) (sid : String) :
    (svc.erase sid).lookup sid = none := by
  have hnone : (svc.sessions.filter (fun kv => kv.1 ≠ sid)).find?
      (fun kv => kv.1 = sid) = none := by
    rw [List.find?_eq_none]
    intro x hx
    have := (List.mem_filter.mp hx).2
    simp at this ⊢
    exact this
  simp [SessionService.erase, SessionService.lookup, hnone]

theorem SessionService.lookup_cleanup_of_not_expired {svc : SessionService} {sid : String}
    {sess : Session} (now : Nat) (h : svc.lookup sid = some sess)
    (hexp : svc.expired now sess = false) :
    (svc.cleanup_expired_sessions now).lookup sid = some sess := by
  have hf := SessionService.find?_of_lookup h
  have hfind := find?_filter_of_find? (q := fun kv => ¬ svc.expired now kv.2) hf
    (by simp [hexp])
  have hs : (svc.cleanup_expired_sessions now).sessions
      = svc.sessions.filter (fun kv => ¬ svc.expired now kv.2) := rfl
  unfold SessionService.lookup
  rw [hs, hfind]
  rfl

theorem SessionService.lookup_cleanup_of_expired {svc : SessionService} {sid : String}
    {sess : Session} (now : Nat) (hn : (svc.sessions.map Prod.fst).Nodup)
    (h : svc.lookup sid = some sess) (hexp : svc.expired now sess = true) :
    (svc.cleanup_expired_sessions now).lookup sid = none := by
  have hf := SessionService.find?_of_lookup h
  have hfind := find?_filter_none_unique (q := fun kv => ¬ svc.expired now kv.2) hn hf
    (by simp [hexp])
  have hs : (svc.cleanup_expired_sessions now).sessions
      = svc.sessions.filter (fun kv => ¬ svc.expired now kv.2) := rfl
  unfold SessionService.lookup
  rw [hs, hfind]
  rfl

theorem SessionService.lookup_cleanup_of_none {svc : SessionService} {sid : String}
    (now : Nat) (h : svc.lookup sid = none) :
    (svc.cleanup_expired_sessions now).lookup sid = none := by
  unfold SessionService.lookup at h
  have hnone : svc.sessions.find? (fun kv => kv.1 = sid) = none := by
    cases heq : svc.sessions.find? (fun kv => kv.1 = sid) with
    | none => rfl
    | some kv => rw [heq] at h; cases h
  have hs : (svc.cleanup_expired_sessions now).sessions
      = svc.sessions.filter (fun kv => ¬ svc.expired now kv.2) := rfl
  unfold SessionService.lookup
  rw [hs, find?_filter_none hnone]
  rfl

theorem SessionService.add_message_lookup (svc : SessionService) {sid : String}
    {sess : Session} (hsid : sid ≠ "") (h : svc.lookup sid = some sess)
    (m : ChatMessage) (now : Nat) :
    svc.add_message_to_session sid m now =
      (true, svc.store sid
        { sess with
          chat_history :=
            (sess.chat_history ++ [m]).drop ((sess.chat_history ++ [m]).length - 50)
          message_count := sess.message_count + 1
          last_accessed := now }) := by
  unfold SessionService.add_message_to_session
  rw [if_neg hsid, h]
  simp
  split
  · rfl
  · congr 1
    rw [show sess.chat_history.length - 49 = 0 by omega, List.drop_zero]

theorem SessionService.addMessages_lookup (svc : SessionService) {sid : String}
    {sess : Session} (hsid : sid ≠ "") (h : svc.lookup sid = some sess)
    (hlen : sess.chat_history.length ≤ 50) (msgs : List ChatMessage) (now : Nat) :
    ∃ la, (svc.addMessages sid msgs now).lookup sid =
      some { sess with
             chat_history :=
               (sess.chat_history ++ msgs).drop ((sess.chat_history ++ msgs).length - 50)
             message_count := sess.message_count + msgs.length
             last_accessed := la } := by
  induction msgs generalizing svc sess with
  | nil =>
    refine ⟨sess.last_accessed, ?_⟩
    have h0 : sess.chat_history.length - 50 = 0 := by omega
    simpa [SessionService.addMessages, h0] using h
  | cons m rest ih =>
    have hstep := SessionService.add_message_lookup svc hsid h m now
    have hfold : svc.addMessages sid (m :: rest) now
        = ((svc.add_message_to_session sid m now).2).addMessages sid rest now := rfl
    rw [hfold, hstep]
    set sess' : Session :=
      { sess with
        chat_history :=
          (sess.chat_history ++ [m]).drop ((sess.chat_history ++ [m]).length - 50)
        message_count := sess.message_count + 1
        last_accessed := now } with hsess'
    have h' : ((svc.store sid sess').lookup sid) = some sess' :=
      SessionService.lookup_store svc sid sess'
    have hlen' : sess'.chat_history.length ≤ 50 := by
      rw [hsess']
      simp [List.length_drop]
      omega
    obtain ⟨la, hla⟩ := ih (svc.store sid sess') h' hlen'
    refine ⟨la, ?_⟩
    rw [hla, hsess']
    have hhist := drop_trim_append 50 (sess.chat_history ++ [m]) rest
    rw [List.append_assoc] at hhist
    simp only [List.singleton_append] at hhist
    have hcount : sess.message_count + 1 + rest.length
        = sess.message_count + (rest.length + 1) := by omega
    simp [hcount]
    simpa using hhist

theorem SessionService.add_message_single (timeout lc ci : Nat) {sid : String}
    (hsid : sid ≠ "") (s : Session) (m : ChatMessage) (now : Nat) :
    SessionService.add_message_to_session ⟨timeout, [(sid, s)], lc, ci⟩ sid m now
      = (true, ⟨timeout, [(sid,
          { s with
            chat_history := (s.chat_history ++ [m]).drop ((s.chat_history ++ [m]).length - 50)
            message_count := s.message_count + 1
            last_accessed := now })], lc, ci⟩) := by
  have h : SessionService.lookup ⟨timeout, [(sid, s)], lc, ci⟩ sid = some s := by
    simp [SessionService.lookup]
  rw [SessionService.add_message_lookup _ hsid h m now]
  simp [SessionService.store]

theorem SessionService.addMessages_single (timeout lc ci : Nat) {sid : String}
    (hsid : sid ≠ "") (s : Session) (hlen : s.chat_history.length ≤ 50)
    (msgs : List ChatMessage) (now : Nat) :
    SessionService.addMessages ⟨timeout, [(sid, s)], lc, ci⟩ sid msgs now
      = ⟨timeout, [(sid,
          { s with
            chat_history := (s.chat_history ++ msgs).drop ((s.chat_history ++ msgs).length - 50)
            message_count := s.message_count + msgs.length
            last_accessed := if msgs.isEmpty then s.last_accessed else now })], lc, ci⟩ := by
  induction msgs generalizing s with
  | nil =>
    have h0 : s.chat_history.length - 50 = 0 := by omega
    simp [SessionService.addMessages, h0]
  | cons m rest ih =>
    have hfold : SessionService.addMessages ⟨timeout, [(sid, s)], lc, ci⟩ sid (m :: rest) now
        = ((SessionService.add_message_to_session ⟨timeout, [(sid, s)], lc, ci⟩
            sid m now).2).addMessages sid rest now := rfl
    rw [hfold, SessionService.add_message_single timeout lc ci hsid s m now]
    have hlen' : ((s.chat_history ++ [m]).drop
        ((s.chat_history ++ [m]).length - 50)).length ≤ 50 := by
      simp [List.length_drop]
      omega
    rw [ih _ hlen']
    have hhist := drop_trim_append 50 (s.chat_history ++ [m]) rest
    rw [List.append_assoc] at hhist
    simp only [List.singleton_append] at hhist
    have hcount : s.message_count + 1 + rest.length
        = s.message_count + (rest.length + 1) := by omega
    simp [hcount]
    simpa using hhist

theorem SessionService.get_session_live {svc : SessionService} {sid : String}
    {sess : Session} {now : Nat} (hsid : sid ≠ "") (h : svc.lookup sid = some sess)
    (hexp : svc.expired now sess = false) :
    (svc.get_session sid now).1 = some { sess with last_accessed := now } ∧
    (svc.get_session sid now).2.lookup sid = some { sess with last_accessed := now } := by
  unfold SessionService.get_session
  rw [if_neg hsid]
  by_cases hcl : now - svc.last_cleanup > svc.cleanup_interval
  · rw [if_pos hcl]
    have hl := SessionService.lookup_cleanup_of_not_expired now h hexp
    have hexp' : (svc.cleanup_expired_sessions now).expired now sess = false := hexp
    simp only [hl, hexp']
    simp
    exact SessionService.lookup_store _ sid _
  · rw [if_neg hcl]
    simp only [h, hexp]
    simp
    exact SessionService.lookup_store _ sid _

theorem SessionService.get_session_dead {svc : SessionService} {sid : String}
    {sess : Session} {now : Nat} (hn : (svc.sessions.map Prod.fst).Nodup)
    (hsid : sid ≠ "") (h : svc.lookup sid = some sess)
    (hexp : svc.expired now sess = true) :
    (svc.get_session sid now).1 = none ∧
    (svc.get_session sid now).2.lookup sid = none := by
  unfold SessionService.get_session
  rw [if_neg hsid]
  by_cases hcl : now - svc.last_cleanup > svc.cleanup_interval
  · rw [if_pos hcl]
    have hl := SessionService.lookup_cleanup_of_expired now hn h hexp
    simp only [hl]
    exact ⟨trivial, trivial⟩
  · rw [if_neg hcl]
    have hexp' : svc.expired now sess = true := hexp
    simp only [h, hexp']
    simp
    exact SessionService.lookup_erase svc sid

theorem SessionService.get_session_absent {svc : SessionService} {sid : String}
    {now : Nat} (hsid : sid ≠ "") (h : svc.lookup sid = none) :
    (svc.get_session sid now).1 = none ∧
    (svc.get_session sid now).2.lookup sid = none := by
  unfold SessionService.get_session
  rw [if_neg hsid]
  by_cases hcl : now - svc.last_cleanup > svc.cleanup_interval
  · rw [if_pos hcl]
    have hl := SessionService.lookup_cleanup_of_none now h
    simp only [hl]
    exact ⟨trivial, trivial⟩
  · rw [if_neg hcl]
    simp only [h]
    exact ⟨trivial, trivial⟩

theorem SessionService.stats_single (timeout lc ci now : Nat) (sid : String) (s : Session)
    (h : now - s.last_accessed ≤ timeout * 3600) :
    SessionService.get_session_stats ⟨timeout, [(sid, s)], lc, ci⟩ now
      = ⟨1, 1, s.message_count, timeout⟩ := by
  unfold SessionService.get_session_stats
  rw [List.filter_cons_of_pos (by simpa using h)]
  simp

/-! ## Claim theorems -/

/-- C1: for every session in the registry (here: freshly created by
`create_session` on an arbitrary registry state) and every sequence of
successful `add_message_to_session` calls appending the messages `msgs`,
the stored `chat_history` has length `min 50 msgs.length` and is exactly
the suffix of the most recently appended messages in their original append
order (oldest entries dropped first, FIFO). -/
theorem C1_history_fifo (svc : SessionService) (sid collection : String) (now : Nat)
    (msgs : List ChatMessage) (hsid : sid ≠ "") :
    ∃ sess,
      (((svc.create_session sid collection now).1).addMessages sid msgs now).lookup sid
        = some sess ∧
      sess.chat_history = msgs.drop (msgs.length - 50) ∧
      sess.chat_history.length = min 50 msgs.length := by
  have h1 : ((svc.create_session sid collection now).1).lookup sid
      = some { id := sid, collection_name := collection, chat_history := [],
               created_at := now, last_accessed := now, message_count := 0 } :=
    SessionService.lookup_store svc sid _
  obtain ⟨la, hla⟩ :=
    SessionService.addMessages_lookup _ hsid h1 (by simp) msgs now
  refine ⟨_, hla, ?_, ?_⟩
  · simp
  · simp [List.length_drop]
    omega

/-- C1 witness: two messages appended to a fresh session are stored in
order, with history length `min 50 2 = 2`. -/
theorem C1_history_fifo_witness :
    ∃ sess,
      ((((SessionService.init 24 0).create_session "s" "col" 0).1).addMessages "s"
          [⟨"user", "hi", none⟩, ⟨"assistant", "hello", none⟩] 0).lookup "s"
        = some sess ∧
      sess.chat_history = ([⟨"user", "hi", none⟩, ⟨"assistant", "hello", none⟩] :
          List ChatMessage).drop
            (([⟨"user", "hi", none⟩, ⟨"assistant", "hello", none⟩] :
              List ChatMessage).length - 50) ∧
      sess.chat_history.length = min 50 ([⟨"user", "hi", none⟩,
          ⟨"assistant", "hello", none⟩] : List ChatMessage).length :=
  C1_history_fifo (SessionService.init 24 0) "s" "col" 0
    [⟨"user", "hi", none⟩, ⟨"assistant", "hello", none⟩] (by decide)

/-- C10: after `n` successful `add_message_to_session` calls on a freshly
created session, the session's `message_count` equals `n` (the total number
of messages ever appended) and is not decremented by history trimming: for
`n > 50` it strictly exceeds the stored `chat_history` length, and
`get_session_stats` reports `total_messages` as the appended count `n`
rather than the number of stored messages. -/
theorem C10_message_count (sid collection : String) (now : Nat)
    (msgs : List ChatMessage) (hsid : sid ≠ "") :
    ∃ sess,
      ((((SessionService.init 24 now).create_session sid collection now).1).addMessages
          sid msgs now).lookup sid = some sess ∧
      sess.message_count = msgs.length ∧
      sess.chat_history.length = min 50 msgs.length ∧
      (msgs.length > 50 → sess.message_count > sess.chat_history.length) ∧
      (((((SessionService.init 24 now).create_session sid collection now).1).addMessages
          sid msgs now).get_session_stats now).total_messages = msgs.length := by
  have hcreate : ((SessionService.init 24 now).create_session sid collection now).1
      = ⟨24, [(sid, { id := sid, collection_name := collection, chat_history := [],
                      created_at := now, last_accessed := now, message_count := 0 })],
         now, 3600⟩ := rfl
  rw [hcreate, SessionService.addMessages_single 24 now 3600 hsid _ (by simp) msgs now]
  refine ⟨⟨sid, collection, msgs.drop (msgs.length - 50), now, now, msgs.length⟩,
    ?_, ?_, ?_, ?_, ?_⟩
  · simp [SessionService.lookup]
  · rfl
  · simp [List.length_drop]
    omega
  · intro h50
    simp [List.length_drop]
    omega
  · rw [SessionService.stats_single 24 now 3600 now sid _ (by simp)]
    simp

/-- C10 witness: one message appended to a fresh session gives
`message_count = 1` and `total_messages = 1`. -/
theorem C10_message_count_witness :
    ∃ sess,
      ((((SessionService.init 24 7).create_session "s" "col" 7).1).addMessages
          "s" [⟨"user", "hi", none⟩] 7).lookup "s" = some sess ∧
      sess.message_count = ([⟨"user", "hi", none⟩] : List ChatMessage).length ∧
      sess.chat_history.length = min 50 ([⟨"user", "hi", none⟩] : List ChatMessage).length ∧
      (([⟨"user", "hi", none⟩] : List ChatMessage).length > 50 →
        sess.message_count > sess.chat_history.length) ∧
      (((((SessionService.init 24 7).create_session "s" "col" 7).1).addMessages
          "s" [⟨"user", "hi", none⟩] 7).get_session_stats 7).total_messages
        = ([⟨"user", "hi", none⟩] : List ChatMessage).length :=
  C10_message_count "s" "col" 7 [⟨"user", "hi", none⟩] (by decide)

/-- C4: for a stored session (in a registry whose session keys are distinct,
as Python dict keys are), `get_session` returns the session with a refreshed
`last_accessed` whenever the elapsed time since `last_accessed` is at most
`session_timeout_hours` (in seconds); strictly after that bound it removes
the session and returns `none`, and the session stays unreachable through
`get_session` from then on. -/
theorem C4_get_session_expiry (svc : SessionService) (sid : String) (sess : Session)
    (now : Nat) (hn : (svc.sessions.map Prod.fst).Nodup) (hsid : sid ≠ "")
    (h : svc.lookup sid = some sess) :
    (now - sess.last_accessed ≤ svc.session_timeout_hours * 3600 →
      (svc.get_session sid now).1 = some { sess with last_accessed := now } ∧
      (svc.get_session sid now).2.lookup sid = some { sess with last_accessed := now }) ∧
    (now - sess.last_accessed > svc.session_timeout_hours * 3600 →
      (svc.get_session sid now).1 = none ∧
      (svc.get_session sid now).2.lookup sid = none ∧
      ∀ now₂, ((svc.get_session sid now).2.get_session sid now₂).1 = none) := by
  constructor
  · intro hle
    have hexp : svc.expired now sess = false := by
      simp [SessionService.expired]
      omega
    exact SessionService.get_session_live hsid h hexp
  · intro hgt
    have hexp : svc.expired now sess = true := by
      simp [SessionService.expired]
      omega
    have key := SessionService.get_session_dead hn hsid h hexp
    exact ⟨key.1, key.2, fun now₂ =>
      (SessionService.get_session_absent hsid key.2).1⟩

/-- C4 witness: a session last accessed at time 0 in a 24-hour registry is
returned (with refreshed `last_accessed`) by `get_session` at time 3600, and
is removed and unreachable at time 24*3600 + 1. -/
theorem C4_get_session_expiry_witness :
    ((3600 - (0 : Nat) ≤ 24 * 3600 →
        ((⟨24, [("s", ⟨"s", "col", [], 0, 0, 0⟩)], 0, 3600⟩ :
            SessionService).get_session "s" 3600).1
          = some { (⟨"s", "col", [], 0, 0, 0⟩ : Session) with last_accessed := 3600 } ∧
        ((⟨24, [("s", ⟨"s", "col", [], 0, 0, 0⟩)], 0, 3600⟩ :
            SessionService).get_session "s" 3600).2.lookup "s"
          = some { (⟨"s", "col", [], 0, 0, 0⟩ : Session) with last_accessed := 3600 }) ∧
      (3600 - (0 : Nat) > 24 * 3600 → True)) ∧
    ((24 * 3600 + 1 - (0 : Nat) ≤ 24 * 3600 → True) ∧
      (24 * 3600 + 1 - (0 : Nat) > 24 * 3600 →
        ((⟨24, [("s", ⟨"s", "col", [], 0, 0, 0⟩)], 0, 3600⟩ :
            SessionService).get_session "s" (24 * 3600 + 1)).1 = none ∧
        ((⟨24, [("s", ⟨"s", "col", [], 0, 0, 0⟩)], 0, 3600⟩ :
            SessionService).get_session "s" (24 * 3600 + 1)).2.lookup "s" = none ∧
        ∀ now₂, (((⟨24, [("s", ⟨"s", "col", [], 0, 0, 0⟩)], 0, 3600⟩ :
            SessionService).get_session "s" (24 * 3600 + 1)).2.get_session
              "s" now₂).1 = none)) := by
  have h1 := C4_get_session_expiry ⟨24, [("s", ⟨"s", "col", [], 0, 0, 0⟩)], 0, 3600⟩
    "s" ⟨"s", "col", [], 0, 0, 0⟩ 3600 (by decide) (by decide) (by decide)
  have h2 := C4_get_session_expiry ⟨24, [("s", ⟨"s", "col", [], 0, 0, 0⟩)], 0, 3600⟩
    "s" ⟨"s", "col", [], 0, 0, 0⟩ (24 * 3600 + 1) (by decide) (by decide) (by decide)
  exact ⟨⟨fun h => h1.1 h, fun _ => trivial⟩, ⟨fun _ => trivial, fun h => h2.2 h⟩⟩

theorem TaskStore.get_set (st : TaskStore) (k : String) (v : TaskEntry) :
    (st.set k v).get k = some v := by
  unfold TaskStore.set TaskStore.get
  by_cases h : (st.find? (fun kv => kv.1 = k)).isSome = true
  · rw [if_pos h]
    simp [find?_map_update _ _ _ h]
  · rw [if_neg h]
    have hnone : st.find? (fun kv => kv.1 = k) = none :=
      Option.not_isSome_iff_eq_none.mp (by simpa using h)
    simp [find?_append_single _ _ _ hnone]

/-- C2 (amended): every run of the registered background ingestion routine
ends with the task entry in status `completed` or `failed` (never stuck in
`processing`); when some collaborator stage raises, the entry is `failed`
and its error string is exactly the exception's message (hence non-empty
whenever the message is non-empty); and the temporary processing directory
is removed on both the success and the failure path whenever it exists. -/
theorem C2_task_failure_semantics (store : TaskStore) (task_id collection_name : String)
    (file_paths : List String) (env : IngestEnv) (hfp : file_paths ≠ []) :
    (∃ e, (process_vector_store_creation store task_id collection_name
        file_paths env).1.get task_id = some e ∧
      (e.status = "completed" ∨ e.status = "failed") ∧
      (∀ m, env.firstExc = some m → e.status = "failed" ∧ e.error = some m) ∧
      (env.firstExc = none → e.status = "completed")) ∧
    (process_vector_store_creation store task_id collection_name file_paths env).2
      = env.dir_exists := by
  obtain ⟨lr, vr, ir, de⟩ := env
  refine ⟨?_, by simp [process_vector_store_creation, hfp]⟩
  cases lr with
  | exc m =>
    refine ⟨⟨"failed", none, none, some m⟩, TaskStore.get_set _ _ _, Or.inr rfl, ?_, ?_⟩
    · intro m' hm'
      simp [IngestEnv.firstExc] at hm'
      subst hm'
      exact ⟨rfl, rfl⟩
    · intro h0
      simp [IngestEnv.firstExc] at h0
  | ok docs =>
    cases vr with
    | exc m =>
      refine ⟨⟨"failed", none, none, some m⟩, TaskStore.get_set _ _ _, Or.inr rfl, ?_, ?_⟩
      · intro m' hm'
        simp [IngestEnv.firstExc] at hm'
        subst hm'
        exact ⟨rfl, rfl⟩
      · intro h0
        simp [IngestEnv.firstExc] at h0
    | ok u =>
      cases ir with
      | exc m =>
        refine ⟨⟨"failed", none, none, some m⟩, TaskStore.get_set _ _ _, Or.inr rfl,
          ?_, ?_⟩
        · intro m' hm'
          simp [IngestEnv.firstExc] at hm'
          subst hm'
          exact ⟨rfl, rfl⟩
        · intro h0
          simp [IngestEnv.firstExc] at h0
      | ok ins =>
        refine ⟨⟨"completed", some 100,
          some ⟨docs.length, collection_name, ins.summary, ins.faq⟩, none⟩,
          TaskStore.get_set _ _ _, Or.inl rfl, ?_, fun _ => rfl⟩
        intro m' hm'
        simp [IngestEnv.firstExc] at hm'

/-- C2 counterexample: an exception whose `str()` is the empty string (as for
Python's `ValueError()`) leaves the task entry in status `failed` with an
empty error string, falsifying the claim's non-empty-error guarantee. -/
theorem C2_counterexample :
    ∃ e, (process_vector_store_creation [] "t1" "col" ["temp_pdfs/t1/a.pdf"]
        ⟨.exc "", .ok (), .ok ⟨"s", []⟩, true⟩).1.get "t1" = some e ∧
      e.status = "failed" ∧ e.error = some "" :=
  ⟨⟨"failed", none, none, some ""⟩, by decide, rfl, rfl⟩

/-- C2 witness: a run whose insights stage raises with message `"boom"` ends
`failed` with error `"boom"` and removes the existing temp directory. -/
theorem C2_task_failure_semantics_witness :
    (∃ e, (process_vector_store_creation [] "t1" "col" ["temp_pdfs/t1/a.pdf"]
        ⟨.ok [], .ok (), .exc "boom", true⟩).1.get "t1" = some e ∧
      (e.status = "completed" ∨ e.status = "failed") ∧
      (∀ m, (⟨.ok [], .ok (), .exc "boom", true⟩ : IngestEnv).firstExc = some m →
        e.status = "failed" ∧ e.error = some m) ∧
      ((⟨.ok [], .ok (), .exc "boom", true⟩ : IngestEnv).firstExc = none →
        e.status = "completed")) ∧
    (process_vector_store_creation [] "t1" "col" ["temp_pdfs/t1/a.pdf"]
        ⟨.ok [], .ok (), .exc "boom", true⟩).2
      = (⟨.ok [], .ok (), .exc "boom", true⟩ : IngestEnv).dir_exists :=
  C2_task_failure_semantics [] "t1" "col" ["temp_pdfs/t1/a.pdf"]
    ⟨.ok [], .ok (), .exc "boom", true⟩ (by decide)

/-- C3: every run of `chat_with_rag_stream.generate_stream` emits all
`source` events before all `content` events and terminates deterministically,
with the terminal tied to the run's outcome: an exception raised by the
retrieval call ends the stream with a single `error` event and nothing else;
an exception raised by the LLM stream ends it with the already-emitted
source and content events followed by a single `error` event in place of the
terminal; and an exception-free run ends with one `complete` event carrying
the full concatenated content and the full source list (both possibly
empty) followed by the `[DONE]` sentinel — never silently. -/
theorem C3_stream_protocol (env : StreamEnv) :
    (∀ m, env.retrieval = .exc m → generate_stream env = [Event.error m]) ∧
    (∀ docs m, env.retrieval = .ok docs → env.stream_exc = some m →
      generate_stream env
        = (docs.map sourceRef).map Event.source
          ++ (env.chunks.filterMap Chunk.emitted).map Event.content
          ++ [Event.error m]) ∧
    (∀ docs, env.retrieval = .ok docs → env.stream_exc = none →
      generate_stream env
        = (docs.map sourceRef).map Event.source
          ++ (env.chunks.filterMap Chunk.emitted).map Event.content
          ++ [Event.complete (String.join (env.chunks.filterMap Chunk.emitted))
                (docs.map sourceRef), Event.done]) := by
  obtain ⟨retrieval, chunks, stream_exc⟩ := env
  refine ⟨?_, ?_, ?_⟩
  · intro m hm
    subst hm
    rfl
  · intro docs m hd hs
    subst hd
    subst hs
    rfl
  · intro docs hd hs
    subst hd
    subst hs
    rfl

/-- C3 witness: a retrieval exception yields exactly one `error` event, and
an exception-free run over one document and one chunk ends with the
`complete` event (content `"Hi"`, one source) followed by `[DONE]`. -/
theorem C3_stream_protocol_witness :
    generate_stream ⟨.exc "boom", [Chunk.withContent "x"], none⟩ = [Event.error "boom"] ∧
    generate_stream ⟨.ok [⟨"c", [("source", .str "a.pdf"), ("page", .int 3)]⟩],
        [Chunk.withContent "Hi"], none⟩
      = (([⟨"c", [("source", .str "a.pdf"), ("page", .int 3)]⟩] :
            List Doc).map sourceRef).map Event.source
        ++ (([Chunk.withContent "Hi"] : List Chunk).filterMap
            Chunk.emitted).map Event.content
        ++ [Event.complete (String.join (([Chunk.withContent "Hi"] :
              List Chunk).filterMap Chunk.emitted))
              (([⟨"c", [("source", .str "a.pdf"), ("page", .int 3)]⟩] :
                List Doc).map sourceRef), Event.done] :=
  ⟨(C3_stream_protocol ⟨.exc "boom", [Chunk.withContent "x"], none⟩).1 "boom" rfl,
   (C3_stream_protocol ⟨.ok [⟨"c", [("source", .str "a.pdf"), ("page", .int 3)]⟩],
      [Chunk.withContent "Hi"], none⟩).2.2
     [⟨"c", [("source", .str "a.pdf"), ("page", .int 3)]⟩] rfl rfl⟩

/-- C7: a delete-collection request with `confirm` not equal to `true` issues
no drop operation and reports `success = false`; the drop operation is
issued exactly when `confirm` is true and the collection exists. -/
theorem C7_delete_requires_confirm (collection_name : String) (has_collection : Bool) :
    ((delete_collection false collection_name has_collection).1.success = false ∧
      (delete_collection false collection_name has_collection).2 = false) ∧
    (∀ confirm, (delete_collection confirm collection_name has_collection).2
      = (confirm && has_collection)) := by
  refine ⟨⟨rfl, rfl⟩, ?_⟩
  intro confirm
  cases confirm <;> cases has_collection <;> rfl

/-- C5 counterexample: a request supplying both a textual question and an
audio payload is not rejected: the handler calls the transcription
collaborator and proceeds with the combined question, so no input-validation
error is raised before an external call. -/
theorem C5_counterexample :
    optTruthy (⟨some "What is an atom?", true, some "b64", none, "col", none⟩ :
      ChatRequest).question = true ∧
    (optTruthy (⟨some "What is an atom?", true, some "b64", none, "col", none⟩ :
      ChatRequest).audio_data ||
     optTruthy (⟨some "What is an atom?", true, some "b64", none, "col", none⟩ :
      ChatRequest).audio_url) = true ∧
    resolve_question ⟨some "What is an atom?", true, some "b64", none, "col", none⟩ "T"
      = .proceed "What is an atom?\n\nAudio transcription: T" true :=
  ⟨by decide, by decide, by decide⟩

/-- C5 (amended): a request resolving to neither a textual question nor an
audio payload fails with a 400 input-validation error before the
transcription collaborator is called; a request supplying both is not
rejected — the audio is transcribed and the final question combines the
textual question with the transcription. -/
theorem C5_question_validation (req : ChatRequest) (t : String) :
    ((optTruthy req.question = false ∧ optTruthy req.audio_data = false ∧
        optTruthy req.audio_url = false) →
      resolve_question req t = .httpError 400
        (if req.is_audio then "Audio data or URL required when is_audio=True"
         else "Question is required when is_audio=False")) ∧
    ((req.is_audio = true ∧ optTruthy req.question = true ∧
        (optTruthy req.audio_data || optTruthy req.audio_url) = true) →
      resolve_question req t
        = .proceed ((req.question.getD "") ++ "\n\nAudio transcription: " ++ t) true) := by
  constructor
  · rintro ⟨hq, hd, hu⟩
    cases hia : req.is_audio <;> simp [resolve_question, hia, hq, hd, hu]
  · rintro ⟨ha, hq, hau⟩
    have hcond : ((!optTruthy req.audio_data) && (!optTruthy req.audio_url)) = false := by
      cases h1 : optTruthy req.audio_data <;> cases h2 : optTruthy req.audio_url <;>
        simp_all
    simp [resolve_question, ha, hcond, hq]

/-- C5 witness: a request with no question and no audio is rejected with a
400 validation error before any transcription call. -/
theorem C5_question_validation_witness :
    resolve_question ⟨none, false, none, none, "col", none⟩ "T"
      = .httpError 400
        (if (⟨none, false, none, none, "col", none⟩ : ChatRequest).is_audio then
          "Audio data or URL required when is_audio=True"
         else "Question is required when is_audio=False") :=
  (C5_question_validation ⟨none, false, none, none, "col", none⟩ "T").1 ⟨rfl, rfl, rfl⟩

/-- C6 counterexample: the persona `"TECHNICAL"` lies outside the fixed set
`{ux, sales, technical, management, default}` yet the request is not
rejected — the handler lowercases the persona before membership testing and
proceeds to retrieval. -/
theorem C6_counterexample :
    valid_personas.contains "TECHNICAL" = false ∧
    persona_handler_prefix ⟨⟨some "q", false, none, none, "col", none⟩, "TECHNICAL"⟩
      = .retrieve "q" "TECHNICAL" :=
  ⟨by decide, by decide⟩

/-- C6 (amended): a persona whose lowercase form is outside the fixed set
`{ux, sales, technical, management, default}` fails with a 400 validation
error before the retriever or the model is invoked; and for persona
`"technical"` the assembled system prompt contains the technical-perspective
instruction text. -/
theorem C6_persona_validation (req : PersonaChatRequest) :
    (valid_personas.contains (pyLower req.persona) = false →
      persona_handler_prefix req = .httpError 400
        "Invalid persona. Must be one of: [\x27ux\x27, \x27sales\x27, \x27technical\x27, \x27management\x27, \x27default\x27]") ∧
    ∃ a b, get_persona_rag_prompt "technical" "en"
      = a ++ "Analyze this from a Technical perspective. Focus on implementation, architecture, system design, and technical best practices."
          ++ b := by
  constructor
  · intro h
    unfold persona_handler_prefix
    rw [h]
    rfl
  · exact ⟨personaPromptPart1 "technical",
      personaPromptPart2 "technical" "English", rfl⟩

/-- C6 witness: the persona `"chef"` is rejected with a 400 validation error
before retrieval, and the technical prompt decomposition is exhibited. -/
theorem C6_persona_validation_witness :
    persona_handler_prefix ⟨⟨some "q", false, none, none, "col", none⟩, "chef"⟩
      = .httpError 400
        "Invalid persona. Must be one of: [\x27ux\x27, \x27sales\x27, \x27technical\x27, \x27management\x27, \x27default\x27]" ∧
    ∃ a b, get_persona_rag_prompt "technical" "en"
      = a ++ "Analyze this from a Technical perspective. Focus on implementation, architecture, system design, and technical best practices."
          ++ b :=
  ⟨(C6_persona_validation ⟨⟨some "q", false, none, none, "col", none⟩, "chef"⟩).1
      (by decide),
   (C6_persona_validation ⟨⟨some "q", false, none, none, "col", none⟩, "chef"⟩).2⟩

theorem mem_metaSet {md : List (String × MetaVal)} {k : String} {v : MetaVal}
    {kv : String × MetaVal} (h : kv ∈ metaSet md k v) : kv ∈ md ∨ kv.1 = k := by
  unfold metaSet at h
  split at h
  · rw [List.mem_map] at h
    obtain ⟨kv₀, hkv₀, heq⟩ := h
    by_cases hk : kv₀.1 = k
    · rw [if_pos hk] at heq
      right
      rw [← heq]
    · rw [if_neg hk] at heq
      left
      rw [← heq]
      exact hkv₀
  · rw [List.mem_append] at h
    rcases h with h | h
    · left; exact h
    · right
      simp at h
      rw [h]

theorem mem_clean_metadata {d : Doc} {kv : String × MetaVal}
    (h : kv ∈ (clean_metadata d).metadata) : safe_fields.contains kv.1 = true := by
  unfold clean_metadata at h
  split at h
  · rename_i h0
    rw [h0] at h
    cases h
  · exact (List.mem_filter.mp h).2

/-- C9 counterexample: the ingestion pipeline adds the `collection_name`
metadata key after `clean_metadata` has run, so a key outside the allow-list
`safe_fields` reaches the index. -/
theorem C9_counterexample :
    indexed_documents [⟨"c", [("source", .str "a.pdf")]⟩] "col"
      = [⟨"c", [("source", .str "a.pdf"), ("collection_name", .str "col")]⟩] ∧
    safe_fields.contains "collection_name" = false :=
  ⟨by decide, by decide⟩

/-- C9 (amended): every metadata key of every chunk handed to the vector
index is either in the allow-listed `safe_fields` set or is the
`collection_name` key added after cleaning. -/
theorem C9_metadata_allowlist (documents : List Doc) (collection_name : String) :
    (indexed_documents documents collection_name).all
      (fun d => d.metadata.all
        (fun kv => safe_fields.contains kv.1 || kv.1 = "collection_name")) = true := by
  rw [List.all_eq_true]
  intro d hd
  rw [List.all_eq_true]
  intro kv hkv
  unfold indexed_documents at hd
  rw [List.mem_map] at hd
  obtain ⟨d₁, hd₁, rfl⟩ := hd
  have hmem : kv ∈ metaSet d₁.metadata "collection_name" (.str collection_name) := hkv
  rcases mem_metaSet hmem with hin | hk
  · rw [List.mem_map] at hd₁
    obtain ⟨d₀, hd₀, rfl⟩ := hd₁
    have hc := mem_clean_metadata hin
    rw [hc]
    simp
  · rw [hk]
    simp

theorem extract_sources_eq (full_content : String) (docs : List Doc) :
    extract_sources full_content docs
      = ((split_sources_section full_content).1,
         (section_lines (split_sources_section full_content).2).filterMap
           (line_entry docs)) := by
  unfold extract_sources
  rcases h : split_sources_section full_content with ⟨pc, ss⟩
  simp only [h]
  by_cases hss : ss = ""
  · subst hss
    rw [if_neg (by simp)]
    have hsec : section_lines "" = [] := by decide
    rw [hsec]
    rfl
  · rw [if_pos hss]
    rw [foldl_append_toList_eq_filterMap]

theorem line_entry_reference {docs : List Doc} {line : String} {e : SourceEntry}
    (h : line_entry docs line = some e) : e.reference = line := by
  unfold line_entry at h
  split at h
  · split at h
    · generalize hsp : pySplit (pyDropRight (pyDrop line 1) 1) "," = parts at h
      rcases parts with _ | ⟨p0, _ | ⟨p1, rest⟩⟩
      · injection h with h2
        subst h2
        rfl
      · injection h with h2
        subst h2
        rfl
      · conv at h => lhs; whnf
        split at h
        · injection h with h2
          subst h2
          rfl
        · cases h
    · cases h
  · cases h

/-- C8 counterexample: a persona stream whose generated text carries a
sources section with one well-formed bracketed citation line matching no
retrieved document ends with a terminal `complete` event whose sources list
is empty — the unmatched citation line is dropped, not surfaced. -/
theorem C8_counterexample :
    persona_generate_stream "technical" "col" []
        [.withContent "Answer text\nSOURCES:\n[Source: a.pdf, Page: 2]"] none
      = [.persona_info "technical" "col",
         .content "Answer text\nSOURCES:\n[Source: a.pdf, Page: 2]",
         .complete "Answer text" [], .done] ∧
    section_lines (split_sources_section
        "Answer text\nSOURCES:\n[Source: a.pdf, Page: 2]").2
      = ["[Source: a.pdf, Page: 2]"] :=
  ⟨by decide, by decide⟩

/-- C8 (amended): in the persona-mode extraction, every emitted source entry
records a line of the sources section as its `reference`; a bracketed
citation line containing `Source:` and `Page:` that is matched against a
retrieved document's metadata appears in the sources list as a resolved
entry carrying that document's source and page; such a line whose
bracket-stripped text has fewer than two comma-separated parts is surfaced
as an unresolved `Unknown` entry; and every line producing no entry — in
particular a well-formed citation line matching no retrieved document — is
dropped from the terminal sources list. -/
theorem C8_citation_extraction (full_content : String) (docs : List Doc) :
    (∀ e ∈ (extract_sources full_content docs).2,
        e.reference ∈ section_lines (split_sources_section full_content).2 ∧
        line_entry docs e.reference = some e) ∧
    (∀ line ∈ section_lines (split_sources_section full_content).2,
        ∀ (p0 p1 : String) (rest : List String) (d : Doc),
        pyStartsWith line "[" = true → pyEndsWith line "]" = true →
        pyIn "Source:" (pyDropRight (pyDrop line 1) 1) = true →
        pyIn "Page:" (pyDropRight (pyDrop line 1) 1) = true →
        pySplit (pyDropRight (pyDrop line 1) 1) "," = p0 :: p1 :: rest →
        docs.find? (fun doc =>
            (pyIn doc.sourceVal (pyTrim (pyReplace p0 "Source:" ""))
                || pyIn (pyTrim (pyReplace p0 "Source:" "")) doc.sourceVal)
              && doc.pageVal.render = pyTrim (pyReplace p1 "Page:" "")) = some d →
        (⟨d.sourceVal, d.pageVal, line⟩ : SourceEntry)
          ∈ (extract_sources full_content docs).2) ∧
    (∀ line ∈ section_lines (split_sources_section full_content).2,
        pyStartsWith line "[" = true → pyEndsWith line "]" = true →
        pyIn "Source:" (pyDropRight (pyDrop line 1) 1) = true →
        pyIn "Page:" (pyDropRight (pyDrop line 1) 1) = true →
        (pySplit (pyDropRight (pyDrop line 1) 1) ",").length < 2 →
        (⟨"Unknown", .int 1, line⟩ : SourceEntry) ∈ (extract_sources full_content docs).2) ∧
    (∀ line ∈ section_lines (split_sources_section full_content).2,
        line_entry docs line = none →
        ∀ e ∈ (extract_sources full_content docs).2, e.reference ≠ line) := by
  refine ⟨?_, ?_, ?_, ?_⟩
  · intro e he
    rw [extract_sources_eq] at he
    obtain ⟨l, hl, hle⟩ := List.mem_filterMap.mp he
    have hr := line_entry_reference hle
    rw [hr]
    exact ⟨hl, hle⟩
  · intro line hline p0 p1 rest d h1 h2 h3 h4 hsp hf
    rw [extract_sources_eq]
    apply List.mem_filterMap.mpr
    refine ⟨line, hline, ?_⟩
    unfold line_entry
    rw [if_pos (by rw [h1, h2]; rfl), if_pos (by rw [h3, h4]; rfl)]
    rw [hsp]
    conv => lhs; whnf
    rw [hf]
  · intro line hline h1 h2 h3 h4 h5
    rw [extract_sources_eq]
    apply List.mem_filterMap.mpr
    refine ⟨line, hline, ?_⟩
    unfold line_entry
    rw [if_pos (by rw [h1, h2]; rfl), if_pos (by rw [h3, h4]; rfl)]
    rcases hsp : pySplit (pyDropRight (pyDrop line 1) 1) "," with _ | ⟨p0, _ | ⟨p1, rest⟩⟩
    · rfl
    · rfl
    · rw [hsp] at h5
      simp at h5
      exact absurd h5 (by omega)
  · intro line hline hnone e he
    rw [extract_sources_eq] at he
    obtain ⟨l, hl, hle⟩ := List.mem_filterMap.mp he
    have hr := line_entry_reference hle
    intro hcontra
    rw [hcontra] at hr
    rw [hr] at hnone
    rw [hnone] at hle
    cases hle

/-- C8 witness: a citation line matched against a retrieved document's
metadata appears as a resolved entry, and a citation line lacking the
comma-separated page part is surfaced as an unresolved `Unknown` entry. -/
theorem C8_citation_extraction_witness :
    (⟨"a.pdf", .int 2, "[Source: a.pdf, Page: 2]"⟩ : SourceEntry)
      ∈ (extract_sources "A\nSOURCES:\n[Source: a.pdf, Page: 2]"
          [⟨"c", [("source", .str "a.pdf"), ("page", .int 2)]⟩]).2 ∧
    (⟨"Unknown", .int 1, "[Source: a.pdf Page: 2]"⟩ : SourceEntry)
      ∈ (extract_sources "A\nSOURCES:\n[Source: a.pdf Page: 2]" []).2 :=
  ⟨(C8_citation_extraction "A\nSOURCES:\n[Source: a.pdf, Page: 2]"
      [⟨"c", [("source", .str "a.pdf"), ("page", .int 2)]⟩]).2.1
    "[Source: a.pdf, Page: 2]" (by decide) "Source: a.pdf" " Page: 2" []
    ⟨"c", [("source", .str "a.pdf"), ("page", .int 2)]⟩
    (by decide) (by decide) (by decide) (by decide) (by decide) (by decide),
   (C8_citation_extraction "A\nSOURCES:\n[Source: a.pdf Page: 2]" []).2.2.1
    "[Source: a.pdf Page: 2]" (by decide) (by decide) (by decide) (by decide)
    (by decide) (by decide)⟩

end ChatSimpleLearn
